import Mathlib

/-!
Shallow embedding of the license server (`src/license_server.js`, Node.js +
Express + SQLite) and verification of its specification.

The SQLite store is modelled as an in-memory list of license rows and a list
of activation rows.  Each HTTP endpoint body is translated into a pure Lean
function from the store (plus the request data and the ambient inputs
`Date.now()`, `Math.random()`, `req.ip`, `req.headers['user-agent']` and the
SHA-256 digest function, all passed explicitly) to the new store and the JSON
response.  Timestamps are naturals (milliseconds since epoch); nullable
columns are `Option`; JavaScript's coercion of `null` in relational
comparisons is made explicit (`jsNum`).
-/

/-- A row of the `licenses` table (schema in `initDatabase`).  `activated_at`,
`expires_at` and `device_fingerprint` are NULL until first activation and are
set back to NULL by reset, hence `Option`.  The free-text columns are nullable
in the schema, hence `Option String`.  `duration_days`, `created_at` and
`max_devices` are written by every insert, hence plain `Nat`. -/
structure License where
  license_key : String
  client_name : Option String
  client_email : Option String
  license_type : Option String
  duration_days : Nat
  created_at : Nat
  activated_at : Option Nat
  expires_at : Option Nat
  device_fingerprint : Option String
  status : String
  max_devices : Nat
  notes : Option String
deriving DecidableEq

/-- A row of the `activations` table (append-only audit log). -/
structure Activation where
  license_key : String
  device_fingerprint : String
  activated_at : Nat
  ip_address : String
  user_agent : String
deriving DecidableEq

/-- The whole SQLite database: both tables, rows in insertion order. -/
structure Store where
  licenses : List License
  activations : List Activation
deriving DecidableEq

/-- JavaScript relational comparison coerces `null` to `0`
(`null > 0` is `false`, `t > null` is `t > 0`). -/
def jsNum : Option Nat → Nat
  | some n => n
  | none => 0

/-- `db.get('SELECT * FROM licenses WHERE license_key = ?', [key])`:
the first row whose key matches (the key column is UNIQUE, so at most one). -/
def getLicense (s : Store) (key : String) : Option License :=
  s.licenses.find? (fun l => l.license_key == key)

/-- `UPDATE licenses SET ... WHERE license_key = ?`: apply the SET clause `f`
to every row whose key matches. -/
def updateWhere (ls : List License) (key : String) (f : License → License) :
    List License :=
  ls.map (fun l => if l.license_key == key then f l else l)

/-- The number of rows a `WHERE license_key = ?` statement touches
(`this.changes` in the sqlite3 callbacks). -/
def changesFor (ls : List License) (key : String) : Nat :=
  (ls.filter (fun l => l.license_key == key)).length

/-- The alphabet of `generateLicenseKey`:
`const chars = 'ABCDEFGHIJKLMNOPQRSTUVWXYZ0123456789'`. -/
def chars : String := "ABCDEFGHIJKLMNOPQRSTUVWXYZ0123456789"

/-- `chars.charAt(n)` for the draw `n = Math.floor(Math.random() * chars.length)`,
which lands in `0..35`. -/
def charAt36 (n : Fin 36) : Char :=
  chars.toList.get (Fin.cast (by decide : (36 : Nat) = chars.toList.length) n)

/-- `generateLicenseKey()`: two nested loops, four blocks of four characters,
a hyphen after each block but the last.  `r k` is the outcome of the k-th
`Math.floor(Math.random() * chars.length)` call. -/
def generateLicenseKey (r : Nat → Fin 36) : String :=
  (List.range 4).foldl
    (fun key i =>
      let key2 := (List.range 4).foldl
        (fun k j => k.push (charAt36 (r (i * 4 + j)))) key
      if i < 3 then key2.push '-' else key2)
    ""

/-- JSON body of a `POST /api/validate` response. -/
inductive VResult where
  | failure (message : String)
  | success (key fingerprint : String) (activatedAt expiresAt : Option Nat)
      (name email : Option String)
deriving DecidableEq

/-- What the `db.get` callback of `POST /api/validate` decides from the row it
read: which branch runs and, for the branches that respond from the snapshot,
the snapshot row itself (the callback closes over `license`). -/
inductive Decision where
  | licMissing
  | mismatch
  | expireLicense
  | revalidate (license : License)
  | activate (license : License)
deriving DecidableEq

/-- The read phase of `POST /api/validate`: the `db.get` plus the pure tests
the callback performs on the row (`license.status === 'active'`, the
fingerprint comparison `license.device_fingerprint !== hashFingerprint(fingerprint)`
— `null !== hash` is true — and the expiry test
`license.expires_at > 0 && Date.now() > license.expires_at`, where JavaScript
compares `null` as `0`).  `hashF` is `hashFingerprint` (SHA-256 hex digest),
`now` is `Date.now()`. -/
def validateRead (hashF : String → String) (now : Nat) (s : Store)
    (key fingerprint : String) : Decision :=
  match getLicense s key with
  | none => .licMissing
  | some license =>
    if license.status = "active" then
      if license.device_fingerprint ≠ some (hashF fingerprint) then .mismatch
      else if jsNum license.expires_at > 0 ∧ now > jsNum license.expires_at then
        .expireLicense
      else .revalidate license
    else .activate license

/-- SET clause of the lazy-expiry update:
`UPDATE licenses SET status = 'expired'`. -/
def expiredClause (l : License) : License := { l with status := "expired" }

/-- SET clause of the first-activation update: `SET status = 'active',
activated_at = ?, expires_at = ?, device_fingerprint = ?`. -/
def activeClause (hash : String) (activatedAt expiresAt : Nat) (l : License) :
    License :=
  { l with status := "active", activated_at := some activatedAt,
           expires_at := some expiresAt, device_fingerprint := some hash }

/-- The write phase of `POST /api/validate`: the statements the callback runs
against the store as it is when the callback executes, and the response it
sends.  In the first-activation branch the callback runs the unconditional
`UPDATE licenses SET status, activated_at, expires_at, device_fingerprint
WHERE license_key = ?`, then inserts the activation audit row. -/
def validateApply (hashF : String → String) (now : Nat) (ip ua : String)
    (key fingerprint : String) : Decision → Store → Store × VResult
  | .licMissing, s => (s, .failure "Licença não encontrada")
  | .mismatch, s => (s, .failure "Licença já ativada em outro dispositivo")
  | .expireLicense, s =>
      ({ s with licenses := updateWhere s.licenses key expiredClause },
       .failure "Licença expirada")
  | .revalidate license, s =>
      (s, .success key fingerprint license.activated_at license.expires_at
        license.client_name license.client_email)
  | .activate license, s =>
      let activatedAt := now
      let expiresAt := if license.duration_days = 0 then 0 else
        activatedAt + license.duration_days * 24 * 60 * 60 * 1000
      let clause := activeClause (hashF fingerprint) activatedAt expiresAt
      let s1 := { s with licenses := updateWhere s.licenses key clause }
      let s2 := { s1 with activations := s1.activations ++
          [{ license_key := key, device_fingerprint := hashF fingerprint,
             activated_at := activatedAt, ip_address := ip, user_agent := ua }] }
      (s2, .success key fingerprint (some activatedAt) (some expiresAt)
        license.client_name license.client_email)

/-- `POST /api/validate` run to completion with no interleaved request: the
missing-field guard (`!key || !fingerprint`), then the read phase, then the
write phase against the very store the read saw. -/
def validate (hashF : String → String) (now : Nat) (ip ua : String)
    (s : Store) (key fingerprint : String) : Store × VResult :=
  if key = "" ∨ fingerprint = "" then (s, .failure "Chave ou fingerprint ausente")
  else validateApply hashF now ip ua key fingerprint
    (validateRead hashF now s key fingerprint) s

/-- JSON body plus HTTP status of the non-validate endpoints. -/
structure EpResult where
  httpStatus : Nat
  success : Bool
  message : String
deriving DecidableEq

/-- SET clause of the revoke update: `SET status = 'revoked'`. -/
def revokedClause (l : License) : License := { l with status := "revoked" }

/-- SET clause of the path-parameter reset: `SET status = 'unused',
device_fingerprint = NULL, activated_at = NULL` (no `expires_at`). -/
def resetPathClause (l : License) : License :=
  { l with status := "unused", device_fingerprint := none, activated_at := none }

/-- SET clause of the body-parameter reset: `SET status = 'unused',
device_fingerprint = NULL, activated_at = NULL, expires_at = NULL`. -/
def resetBodyClause (l : License) : License :=
  { l with status := "unused", device_fingerprint := none, activated_at := none,
           expires_at := none }

/-- `POST /api/licenses/:key/revoke`: `UPDATE licenses SET status = 'revoked'
WHERE license_key = ?`; `this.changes === 0` gives the 404. -/
def revoke (s : Store) (key : String) : Store × EpResult :=
  let s2 := { s with licenses := updateWhere s.licenses key revokedClause }
  if changesFor s.licenses key = 0 then
    (s2, { httpStatus := 404, success := false, message := "Licença não encontrada" })
  else
    (s2, { httpStatus := 200, success := true, message := "Licença revogada com sucesso" })

/-- `POST /api/licenses/:key/reset` (path-parameter route): `UPDATE licenses
SET status = 'unused', device_fingerprint = NULL, activated_at = NULL WHERE
license_key = ?` — this route does NOT touch `expires_at`. -/
def resetByPath (s : Store) (key : String) : Store × EpResult :=
  let s2 := { s with licenses := updateWhere s.licenses key resetPathClause }
  if changesFor s.licenses key = 0 then
    (s2, { httpStatus := 404, success := false, message := "Licença não encontrada" })
  else
    (s2, { httpStatus := 200, success := true, message := "Licença resetada com sucesso" })

/-- `POST /api/licenses/reset` (body-parameter route, "compatível com gerador
V3"): after the `!licenseKey` guard, `UPDATE licenses SET status = 'unused',
device_fingerprint = NULL, activated_at = NULL, expires_at = NULL WHERE
license_key = ?`; every response of this route is HTTP 200. -/
def resetByBody (s : Store) (licenseKey : String) : Store × EpResult :=
  if licenseKey = "" then
    (s, { httpStatus := 200, success := false, message := "Chave de licença não fornecida" })
  else
    let s2 := { s with licenses := updateWhere s.licenses licenseKey resetBodyClause }
    if changesFor s.licenses licenseKey = 0 then
      (s2, { httpStatus := 200, success := false, message := "Licença não encontrada" })
    else
      (s2, { httpStatus := 200, success := true, message := "Licença resetada com sucesso" })

/-- JavaScript `x || d` for a nullable string request field: the default is
taken when the field is absent or the empty string (both falsy). -/
def jsOrStr (x : Option String) (d : String) : String :=
  match x with
  | some s => if s = "" then d else s
  | none => d

/-- JavaScript `x || 0` for the nullable `durationDays` field. -/
def jsOrNat (x : Option Nat) : Nat :=
  match x with
  | some n => n
  | none => 0

/-- Request body of `POST /api/licenses/generate`. -/
structure GenRequest where
  clientName : Option String
  clientEmail : Option String
  licenseType : Option String
  durationDays : Option Nat
  notes : Option String
deriving DecidableEq

/-- JSON body plus HTTP status of a `POST /api/licenses/generate` response. -/
inductive GenResult where
  | err500 (message : String)
  | ok (licenseKey : String) (createdAt : Nat)
deriving DecidableEq

/-- `POST /api/licenses/generate`: one `generateLicenseKey()` call produces
`licenseKey`, then a single INSERT.  The `license_key` column is UNIQUE, so
the INSERT errors when the key already exists, and the handler forwards that
error as an HTTP 500 response — there is no retry loop. -/
def generate (licenseKey : String) (createdAt : Nat) (req : GenRequest)
    (s : Store) : Store × GenResult :=
  if s.licenses.any (fun l => l.license_key == licenseKey) then
    (s, .err500 "Erro ao gerar licença")
  else
    ({ s with licenses := s.licenses ++
        [{ license_key := licenseKey,
           client_name := some (jsOrStr req.clientName "Não especificado"),
           client_email := some (jsOrStr req.clientEmail "Não especificado"),
           license_type := some (jsOrStr req.licenseType "lifetime"),
           duration_days := jsOrNat req.durationDays,
           created_at := createdAt,
           activated_at := none, expires_at := none, device_fingerprint := none,
           status := "unused", max_devices := 1,
           notes := some (jsOrStr req.notes "") }] },
     .ok licenseKey createdAt)

/-- The expiry the spec ascribes to a first activation:
`expiresAt = durationDays == 0 ? 0 : activatedAt + durationDays*86400000`. -/
def expiryOf (durationDays now : Nat) : Nat :=
  if durationDays = 0 then 0 else now + durationDays * 86400000

/-- A concrete stand-in digest function, used only to evaluate the
hash-parametric theorems at concrete witnesses and counterexamples. -/
def hashW : String → String := fun fingerprint => String.append fingerprint "#"

/-- A concrete `active` row bound to the digest of `"devA"`. -/
def licW : License :=
  { license_key := "KEY-W", client_name := some "Ana",
    client_email := some "ana@mail", license_type := some "lifetime",
    duration_days := 0, created_at := 100, activated_at := some 200,
    expires_at := some 0, device_fingerprint := some "devA#",
    status := "active", max_devices := 1, notes := some "" }

/-- A concrete `unused` row (`duration_days = 2`). -/
def licU : License :=
  { license_key := "KEY-U", client_name := some "Uma",
    client_email := some "uma@mail", license_type := some "standard",
    duration_days := 2, created_at := 10, activated_at := none,
    expires_at := none, device_fingerprint := none,
    status := "unused", max_devices := 1, notes := some "" }

/-- A concrete `active` row bound to the digest of `"devA"`, already past its
expiry (`expires_at = 400`). -/
def licE : License :=
  { license_key := "KEY-E", client_name := some "Eli",
    client_email := some "eli@mail", license_type := some "standard",
    duration_days := 2, created_at := 10, activated_at := some 100,
    expires_at := some 400, device_fingerprint := some "devA#",
    status := "active", max_devices := 1, notes := some "" }

/-- A concrete `active` row that the revoke route will mark `revoked`. -/
def licR : License :=
  { license_key := "KEY-R", client_name := some "Bob",
    client_email := some "bob@mail", license_type := some "lifetime",
    duration_days := 0, created_at := 1, activated_at := some 2,
    expires_at := some 0, device_fingerprint := some "olddev#",
    status := "active", max_devices := 1, notes := some "" }

/-- A concrete row already in status `expired`. -/
def licX : License :=
  { license_key := "KEY-X", client_name := some "Xia",
    client_email := some "xia@mail", license_type := some "standard",
    duration_days := 5, created_at := 1, activated_at := some 2,
    expires_at := some 10, device_fingerprint := some "olddev#",
    status := "expired", max_devices := 1, notes := some "" }

/-- Two concurrent `POST /api/validate` requests (non-empty key and
fingerprints, so the input guard passes) interleaved as: read A, read B,
write A, write B — each write phase applied to the store left by the
previous one, each decision taken from the snapshot its own read saw. -/
def racedValidate (hashF : String → String) (now : Nat) (ip ua : String)
    (s : Store) (key fpA fpB : String) : Store × VResult × VResult :=
  let dA := validateRead hashF now s key fpA
  let dB := validateRead hashF now s key fpB
  let outA := validateApply hashF now ip ua key fpA dA s
  let outB := validateApply hashF now ip ua key fpB dB outA.1
  (outB.1, outA.2, outB.2)

/-- A concrete `unused` row raced over by fingerprints `devA` and `devB`. -/
def licC : License :=
  { license_key := "KEY-C", client_name := some "Cai",
    client_email := some "cai@mail", license_type := some "lifetime",
    duration_days := 0, created_at := 10, activated_at := none,
    expires_at := none, device_fingerprint := none,
    status := "unused", max_devices := 1, notes := some "" }

/-- A concrete `active` row with a nonzero stored expiry (`expires_at = 999`),
used to exercise the two reset routes. -/
def licP : License :=
  { license_key := "KEY-P", client_name := some "Pat",
    client_email := some "pat@mail", license_type := some "standard",
    duration_days := 7, created_at := 1, activated_at := some 10,
    expires_at := some 999, device_fingerprint := some "devA#",
    status := "active", max_devices := 1, notes := some "" }

/-- The extra SET item of the body-parameter reset: `expires_at = NULL`. -/
def clearExpiryClause (l : License) : License := { l with expires_at := none }

/-- A concrete row already holding the key the next generation draw yields. -/
def licG : License :=
  { license_key := "AAAA-AAAA-AAAA-AAAA", client_name := some "Gil",
    client_email := some "gil@mail", license_type := some "lifetime",
    duration_days := 0, created_at := 5, activated_at := none,
    expires_at := none, device_fingerprint := none,
    status := "unused", max_devices := 1, notes := some "" }

/-- A concrete generate request body. -/
def reqG : GenRequest :=
  { clientName := some "Gil", clientEmail := some "gil@mail",
    licenseType := some "lifetime", durationDays := some 30,
    notes := some "note" }

/-- No two rows of the store share a license key. -/
def keysDistinct (s : Store) : Prop :=
  s.licenses.Pairwise (fun a b => a.license_key ≠ b.license_key)

theorem charAt36_mem : ∀ n : Fin 36, charAt36 n ∈ chars.toList := by decide

theorem generateLicenseKey_toList (r : Nat → Fin 36) :
    (generateLicenseKey r).toList =
      [charAt36 (r 0), charAt36 (r 1), charAt36 (r 2), charAt36 (r 3), '-',
       charAt36 (r 4), charAt36 (r 5), charAt36 (r 6), charAt36 (r 7), '-',
       charAt36 (r 8), charAt36 (r 9), charAt36 (r 10), charAt36 (r 11), '-',
       charAt36 (r 12), charAt36 (r 13), charAt36 (r 14), charAt36 (r 15)] := by
  simp [generateLicenseKey, List.range_succ, String.push, String.toList]

/-- C9: for every sequence of random draws, `generateLicenseKey()` returns a
string of exactly 19 characters: four blocks of four characters separated by
single hyphens, every non-hyphen character drawn from the 36-symbol alphabet
`[A-Z0-9]` (and the hyphen itself is not in that alphabet). -/
theorem generateLicenseKey_format (r : Nat → Fin 36) :
    (generateLicenseKey r).length = 19 ∧ '-' ∉ chars.toList ∧
    ∃ b : Fin 16 → Char, (∀ k, b k ∈ chars.toList) ∧
      (generateLicenseKey r).toList =
        [b 0, b 1, b 2, b 3, '-', b 4, b 5, b 6, b 7, '-',
         b 8, b 9, b 10, b 11, '-', b 12, b 13, b 14, b 15] := by
  refine ⟨?_, by decide, fun k => charAt36 (r k.val), fun k => charAt36_mem _, ?_⟩
  · rw [show (generateLicenseKey r).length = (generateLicenseKey r).toList.length
        from rfl, generateLicenseKey_toList]
    exact rfl
  · rw [generateLicenseKey_toList]
    exact rfl

/-! Helper lemmas about the store operations. -/

theorem find?_updateWhere (ls : List License) (key : String)
    (f : License → License) (hf : ∀ l, (f l).license_key = l.license_key) :
    (updateWhere ls key f).find? (fun l => l.license_key == key) =
      (ls.find? (fun l => l.license_key == key)).map f := by
  induction ls with
  | nil => rfl
  | cons l ls ih =>
    show List.find? _ ((if l.license_key == key then f l else l) :: updateWhere ls key f) = _
    by_cases h : (l.license_key == key) = true
    · rw [if_pos h,
        List.find?_cons_of_pos (p := fun l : License => l.license_key == key) _
          (show ((f l).license_key == key) = true by simpa [hf] using h),
        List.find?_cons_of_pos (p := fun l : License => l.license_key == key) _ h]
      rfl
    · rw [if_neg h,
        List.find?_cons_of_neg (p := fun l : License => l.license_key == key) _ (by simpa using h),
        List.find?_cons_of_neg (p := fun l : License => l.license_key == key) _ h, ih]

theorem updateWhere_updateWhere (ls : List License) (key : String)
    (f g : License → License) (hf : ∀ l, (f l).license_key = l.license_key) :
    updateWhere (updateWhere ls key f) key g =
      updateWhere ls key (fun l => g (f l)) := by
  simp only [updateWhere, List.map_map]
  refine List.map_congr_left (fun a _ => ?_)
  by_cases ha : (a.license_key == key) = true <;>
    simp [Function.comp, ha, hf]

theorem changesFor_ne_zero (ls : List License) (key : String) (lic : License)
    (h : ls.find? (fun l => l.license_key == key) = some lic) :
    changesFor ls key ≠ 0 := by
  have hmem : lic ∈ ls := List.mem_of_find?_eq_some h
  have hp : (lic.license_key == key) = true :=
    List.find?_some (p := fun l : License => l.license_key == key) h
  have hm : lic ∈ ls.filter (fun l => l.license_key == key) :=
    List.mem_filter.2 ⟨hmem, hp⟩
  have hpos : 0 < (ls.filter (fun l => l.license_key == key)).length :=
    List.length_pos.2 (List.ne_nil_of_mem hm)
  simp only [changesFor]
  omega

theorem changesFor_eq_zero (ls : List License) (key : String)
    (h : ls.find? (fun l => l.license_key == key) = none) :
    changesFor ls key = 0 := by
  have hall := List.find?_eq_none.1 h
  simp only [changesFor, List.length_eq_zero]
  exact List.filter_eq_nil_iff.2 hall

/-! The claims about `POST /api/validate`. -/

/-- C6: on an `active` license whose bound fingerprint equals the hash of the
supplied fingerprint and which is not expired (`expires_at` is the `0`
no-expiry sentinel, or `now ≤ expires_at`), `POST /api/validate` returns
`valid:true` with the stored activation metadata (`activated_at`,
`expires_at`, client name and email) and leaves the store untouched — so
repeated calls return `valid:true` every time with no mutation. -/
theorem validate_active_match_idempotent (hashF : String → String) (now : Nat)
    (ip ua : String) (s : Store) (key fingerprint : String) (lic : License)
    (hk : key ≠ "") (hfp : fingerprint ≠ "")
    (hget : getLicense s key = some lic)
    (hst : lic.status = "active")
    (hbind : lic.device_fingerprint = some (hashF fingerprint))
    (hexp : jsNum lic.expires_at = 0 ∨ now ≤ jsNum lic.expires_at) :
    validate hashF now ip ua s key fingerprint =
      (s, .success key fingerprint lic.activated_at lic.expires_at
        lic.client_name lic.client_email) := by
  have hnexp : ¬(jsNum lic.expires_at > 0 ∧ now > jsNum lic.expires_at) := by
    rcases hexp with h | h <;> omega
  simp [validate, validateRead, validateApply, hget, hst, hbind, hk, hfp, hnexp]

theorem validate_active_match_idempotent_witness :
    validate hashW 500 "ip" "ua" ⟨[licW], []⟩ "KEY-W" "devA" =
      (⟨[licW], []⟩, .success "KEY-W" "devA" (some 200) (some 0)
        (some "Ana") (some "ana@mail")) :=
  validate_active_match_idempotent hashW 500 "ip" "ua" ⟨[licW], []⟩
    "KEY-W" "devA" licW (by decide) (by decide) (by decide) (by decide)
    (by decide) (Or.inl (by decide))

/-- C7: first activation of an `unused` license sets `status` to `active`,
`device_fingerprint` to the one-way hash of the supplied fingerprint,
`activated_at` to the current time and `expires_at` to `0` when
`duration_days` is `0`, else to `activated_at + duration_days * 86400000`;
it also appends the activation audit row and answers `valid:true`. -/
theorem validate_first_activation (hashF : String → String) (now : Nat)
    (ip ua : String) (s : Store) (key fingerprint : String) (lic : License)
    (hk : key ≠ "") (hfp : fingerprint ≠ "")
    (hget : getLicense s key = some lic)
    (hst : lic.status = "unused") :
    validate hashF now ip ua s key fingerprint =
      (⟨updateWhere s.licenses key
          (activeClause (hashF fingerprint) now (expiryOf lic.duration_days now)),
        s.activations ++
          [⟨key, hashF fingerprint, now, ip, ua⟩]⟩,
       .success key fingerprint (some now) (some (expiryOf lic.duration_days now))
         lic.client_name lic.client_email) ∧
    getLicense (validate hashF now ip ua s key fingerprint).1 key =
      some { lic with status := "active", activated_at := some now,
                      expires_at := some (expiryOf lic.duration_days now),
                      device_fingerprint := some (hashF fingerprint) } := by
  have hne : ¬lic.status = "active" := by rw [hst]; decide
  have h1 : validate hashF now ip ua s key fingerprint =
      (⟨updateWhere s.licenses key
          (activeClause (hashF fingerprint) now (expiryOf lic.duration_days now)),
        s.activations ++
          [⟨key, hashF fingerprint, now, ip, ua⟩]⟩,
       .success key fingerprint (some now) (some (expiryOf lic.duration_days now))
         lic.client_name lic.client_email) := by
    by_cases hd : lic.duration_days = 0 <;>
      simp [validate, validateRead, validateApply, hget, hne, hk, hfp,
        expiryOf, hd, Nat.mul_assoc]
  refine ⟨h1, ?_⟩
  rw [h1]
  simp only [getLicense]
  rw [find?_updateWhere s.licenses key
    (activeClause (hashF fingerprint) now (expiryOf lic.duration_days now))
    (fun l => rfl)]
  have hget2 : s.licenses.find? (fun l => l.license_key == key) = some lic := hget
  rw [hget2]
  rfl

theorem validate_first_activation_witness :
    validate hashW 50 "ip" "ua" ⟨[licU], []⟩ "KEY-U" "devA" =
      (⟨updateWhere [licU] "KEY-U" (activeClause "devA#" 50 (expiryOf 2 50)),
        [⟨"KEY-U", "devA#", 50, "ip", "ua"⟩]⟩,
       .success "KEY-U" "devA" (some 50) (some (expiryOf 2 50))
         (some "Uma") (some "uma@mail")) ∧
    getLicense (validate hashW 50 "ip" "ua" ⟨[licU], []⟩ "KEY-U" "devA").1 "KEY-U" =
      some { licU with status := "active", activated_at := some 50,
                       expires_at := some (expiryOf 2 50),
                       device_fingerprint := some "devA#" } :=
  validate_first_activation hashW 50 "ip" "ua" ⟨[licU], []⟩ "KEY-U" "devA" licU
    (by decide) (by decide) (by decide) (by decide)

/-- C8: on an `active` license whose bound fingerprint matches, if
`expires_at` is not the `0` sentinel and `now` is past it, `POST /api/validate`
flips `status` to `expired`, touches no other field and no other table, and
answers `valid:false` with the expired message; if `expires_at = 0` the
call never fails due to expiry, whatever `now` is. -/
theorem validate_lazy_expiry (hashF : String → String) (now : Nat)
    (ip ua : String) (s : Store) (key fingerprint : String) (lic : License)
    (hk : key ≠ "") (hfp : fingerprint ≠ "")
    (hget : getLicense s key = some lic)
    (hst : lic.status = "active")
    (hbind : lic.device_fingerprint = some (hashF fingerprint)) :
    (jsNum lic.expires_at ≠ 0 → now > jsNum lic.expires_at →
      validate hashF now ip ua s key fingerprint =
        (⟨updateWhere s.licenses key expiredClause, s.activations⟩,
         .failure "Licença expirada") ∧
      getLicense (validate hashF now ip ua s key fingerprint).1 key =
        some { lic with status := "expired" }) ∧
    (jsNum lic.expires_at = 0 →
      (validate hashF now ip ua s key fingerprint).2 =
        .success key fingerprint lic.activated_at lic.expires_at
          lic.client_name lic.client_email) := by
  constructor
  · intro hnz hlate
    have h1 : validate hashF now ip ua s key fingerprint =
        (⟨updateWhere s.licenses key expiredClause, s.activations⟩,
         .failure "Licença expirada") := by
      have hpos : jsNum lic.expires_at > 0 := Nat.pos_of_ne_zero hnz
      simp [validate, validateRead, validateApply, hget, hst, hbind,
        hk, hfp, hpos, hlate]
    refine ⟨h1, ?_⟩
    rw [h1]
    simp only [getLicense]
    rw [find?_updateWhere s.licenses key expiredClause (fun l => rfl)]
    have hget2 : s.licenses.find? (fun l => l.license_key == key) = some lic := hget
    rw [hget2]
    rfl
  · intro hz
    have hnexp : ¬(jsNum lic.expires_at > 0 ∧ now > jsNum lic.expires_at) := by
      omega
    simp [validate, validateRead, validateApply, hget, hst, hbind, hk, hfp, hnexp]

theorem validate_lazy_expiry_witness :
    (500 > jsNum licE.expires_at) ∧
    validate hashW 500 "ip" "ua" ⟨[licE], []⟩ "KEY-E" "devA" =
      (⟨updateWhere [licE] "KEY-E" expiredClause, []⟩, .failure "Licença expirada") :=
  ⟨by decide,
    ((validate_lazy_expiry hashW 500 "ip" "ua" ⟨[licE], []⟩ "KEY-E" "devA" licE
      (by decide) (by decide) (by decide) (by decide) (by decide)).1
      (by decide) (by decide)).1⟩

/-! The claims about revoke. -/

/-- C10: on an existing license in any status, `POST /api/licenses/:key/revoke`
updates only the `status` column to `revoked`: `device_fingerprint`,
`activated_at`, `expires_at` and all client metadata stay as they were (the
record update in the conclusion touches `status` alone), the activations
table is untouched, and the route reports success. -/
theorem revoke_status_only (s : Store) (key : String) (lic : License)
    (hget : getLicense s key = some lic) :
    revoke s key =
      (⟨updateWhere s.licenses key revokedClause, s.activations⟩,
       ⟨200, true, "Licença revogada com sucesso"⟩) ∧
    getLicense (revoke s key).1 key = some { lic with status := "revoked" } := by
  have hget2 : s.licenses.find? (fun l => l.license_key == key) = some lic := hget
  have hch : changesFor s.licenses key ≠ 0 := changesFor_ne_zero _ _ _ hget2
  have h1 : revoke s key =
      (⟨updateWhere s.licenses key revokedClause, s.activations⟩,
       ⟨200, true, "Licença revogada com sucesso"⟩) := by
    simp [revoke, hch]
  refine ⟨h1, ?_⟩
  rw [h1]
  simp only [getLicense]
  rw [find?_updateWhere s.licenses key revokedClause (fun l => rfl)]
  rw [hget2]
  rfl

theorem revoke_status_only_witness :
    revoke ⟨[licE], []⟩ "KEY-E" =
      (⟨updateWhere [licE] "KEY-E" revokedClause, []⟩,
       ⟨200, true, "Licença revogada com sucesso"⟩) ∧
    getLicense (revoke ⟨[licE], []⟩ "KEY-E").1 "KEY-E" =
      some { licE with status := "revoked" } :=
  revoke_status_only ⟨[licE], []⟩ "KEY-E" licE (by decide)

/-! C1: what `POST /api/validate` actually does to an `expired` or `revoked`
license.  The handler only tests `license.status === 'active'`; every other
status — including `'expired'` and `'revoked'` — falls through to the
first-activation branch. -/

/-- C1 fails on the code: after `revoke`, the very next `POST /api/validate`
with a fresh fingerprint does not fail with a revoked message — it succeeds
(`valid:true`), re-binds the license to the new fingerprint and appends a new
activation record; an `expired` license is likewise re-activated with a fresh
expiry.  The handler never checks for the `expired`/`revoked` statuses. -/
theorem validate_reactivates_revoked_and_expired :
    ((getLicense (revoke ⟨[licR], []⟩ "KEY-R").1 "KEY-R").map License.status =
      some "revoked") ∧
    validate hashW 50 "ip" "ua" (revoke ⟨[licR], []⟩ "KEY-R").1 "KEY-R" "newdev" =
      (⟨[{ licR with status := "active", activated_at := some 50,
                     expires_at := some 0,
                     device_fingerprint := some "newdev#" }],
        [⟨"KEY-R", "newdev#", 50, "ip", "ua"⟩]⟩,
       .success "KEY-R" "newdev" (some 50) (some 0) (some "Bob") (some "bob@mail")) ∧
    validate hashW 100 "ip" "ua" ⟨[licX], []⟩ "KEY-X" "dev2" =
      (⟨[{ licX with status := "active", activated_at := some 100,
                     expires_at := some 432000100,
                     device_fingerprint := some "dev2#" }],
        [⟨"KEY-X", "dev2#", 100, "ip", "ua"⟩]⟩,
       .success "KEY-X" "dev2" (some 100) (some 432000100)
         (some "Xia") (some "xia@mail")) := by
  refine ⟨by decide, by decide, by decide⟩

/-! C2: the binding race.  Each `POST /api/validate` request is a `db.get`
whose callback later queues the UPDATE and INSERT statements; sqlite3 runs
queued statements in order, so with two concurrent requests for the same key
both `db.get`s can run before either callback's writes. -/

/-- C2 fails on the code: under the read-read-write-write interleaving both
concurrent calls on the same `unused` license succeed as first bindings
(neither gets `DeviceMismatch`), TWO activation records are appended, and the
stored binding is simply the later writer's fingerprint hash. -/
theorem racedValidate_double_binding :
    racedValidate hashW 50 "ip" "ua" ⟨[licC], []⟩ "KEY-C" "devA" "devB" =
      (⟨[{ licC with status := "active", activated_at := some 50,
                     expires_at := some 0,
                     device_fingerprint := some "devB#" }],
        [⟨"KEY-C", "devA#", 50, "ip", "ua"⟩, ⟨"KEY-C", "devB#", 50, "ip", "ua"⟩]⟩,
       .success "KEY-C" "devA" (some 50) (some 0) (some "Cai") (some "cai@mail"),
       .success "KEY-C" "devB" (some 50) (some 0) (some "Cai") (some "cai@mail")) := by
  decide

/-! C3 and C4: the two reset routes. -/

/-- Helper: the response of `POST /api/validate` on an `unused` license is a
first-activation success carrying the fresh timestamps.  (Shared by the
reset round-trip results.) -/
theorem validate_unused_response (hashF : String → String) (now : Nat)
    (ip ua : String) (s : Store) (key fp : String) (lic : License)
    (hk : key ≠ "") (hfp : fp ≠ "") (hget : getLicense s key = some lic)
    (hst : lic.status = "unused") :
    (validate hashF now ip ua s key fp).2 =
      .success key fp (some now) (some (expiryOf lic.duration_days now))
        lic.client_name lic.client_email := by
  have hne : ¬lic.status = "active" := by rw [hst]; decide
  by_cases hd : lic.duration_days = 0 <;>
    simp [validate, validateRead, validateApply, hget, hne, hk, hfp,
      expiryOf, hd, Nat.mul_assoc]

/-- C3's counterexample: the path-parameter reset route does NOT clear all
three fields — after resetting `licP`, the stored `expires_at` is still
`999`, not NULL (its UPDATE lists only `status`, `device_fingerprint` and
`activated_at`). -/
theorem resetByPath_leaves_expiresAt :
    ((getLicense (resetByPath ⟨[licP], []⟩ "KEY-P").1 "KEY-P").map
      License.expires_at) = some (some 999) := by decide

/-- C3 as amended: on an existing license, either reset route sets
`status = unused` and clears `device_fingerprint` and `activated_at`, and the
body route alone also clears `expires_at` (the path route leaves it
unchanged); after either route any subsequent validate with a non-empty
fingerprint — in particular one differing from the originally bound one —
succeeds as a fresh first activation; reset on a nonexistent key fails with
the not-found outcome (HTTP 404 on the path route, an HTTP 200
`success:false` on the body route). -/
theorem reset_roundtrip_amended (s : Store) (key : String) (hk : key ≠ "") :
    (∀ lic, getLicense s key = some lic →
      ((resetByPath s key).2 = ⟨200, true, "Licença resetada com sucesso"⟩ ∧
        getLicense (resetByPath s key).1 key = some (resetPathClause lic)) ∧
      ((resetByBody s key).2 = ⟨200, true, "Licença resetada com sucesso"⟩ ∧
        getLicense (resetByBody s key).1 key = some (resetBodyClause lic)) ∧
      (∀ hashF now ip ua fp, fp ≠ "" →
        (validate hashF now ip ua (resetByPath s key).1 key fp).2 =
          .success key fp (some now) (some (expiryOf lic.duration_days now))
            lic.client_name lic.client_email) ∧
      (∀ hashF now ip ua fp, fp ≠ "" →
        (validate hashF now ip ua (resetByBody s key).1 key fp).2 =
          .success key fp (some now) (some (expiryOf lic.duration_days now))
            lic.client_name lic.client_email)) ∧
    (getLicense s key = none →
      (resetByPath s key).2 = ⟨404, false, "Licença não encontrada"⟩ ∧
      (resetByBody s key).2 = ⟨200, false, "Licença não encontrada"⟩) := by
  constructor
  · intro lic hget
    have hget2 : s.licenses.find? (fun l => l.license_key == key) = some lic := hget
    have hch : changesFor s.licenses key ≠ 0 := changesFor_ne_zero _ _ _ hget2
    have hpath : getLicense (resetByPath s key).1 key = some (resetPathClause lic) := by
      simp only [resetByPath]
      rw [if_neg hch]
      simp only [getLicense]
      rw [find?_updateWhere s.licenses key resetPathClause (fun l => rfl), hget2]
      rfl
    have hbody : getLicense (resetByBody s key).1 key = some (resetBodyClause lic) := by
      simp only [resetByBody]
      rw [if_neg hk, if_neg hch]
      simp only [getLicense]
      rw [find?_updateWhere s.licenses key resetBodyClause (fun l => rfl), hget2]
      rfl
    refine ⟨⟨?_, hpath⟩, ⟨?_, hbody⟩, ?_, ?_⟩
    · simp only [resetByPath]; rw [if_neg hch]
    · simp only [resetByBody]; rw [if_neg hk, if_neg hch]
    · intro hashF now ip ua fp hfp
      exact validate_unused_response hashF now ip ua _ key fp
        (resetPathClause lic) hk hfp hpath rfl
    · intro hashF now ip ua fp hfp
      exact validate_unused_response hashF now ip ua _ key fp
        (resetBodyClause lic) hk hfp hbody rfl
  · intro hget
    have hch : changesFor s.licenses key = 0 := changesFor_eq_zero _ _ hget
    constructor
    · simp only [resetByPath]; rw [if_pos hch]
    · simp only [resetByBody]; rw [if_neg hk, if_pos hch]

theorem reset_roundtrip_amended_witness :
    (∀ lic, getLicense ⟨[licP], []⟩ "KEY-P" = some lic →
      ((resetByPath ⟨[licP], []⟩ "KEY-P").2 =
        ⟨200, true, "Licença resetada com sucesso"⟩ ∧
        getLicense (resetByPath ⟨[licP], []⟩ "KEY-P").1 "KEY-P" =
          some (resetPathClause lic)) ∧
      ((resetByBody ⟨[licP], []⟩ "KEY-P").2 =
        ⟨200, true, "Licença resetada com sucesso"⟩ ∧
        getLicense (resetByBody ⟨[licP], []⟩ "KEY-P").1 "KEY-P" =
          some (resetBodyClause lic)) ∧
      (∀ hashF now ip ua fp, fp ≠ "" →
        (validate hashF now ip ua (resetByPath ⟨[licP], []⟩ "KEY-P").1 "KEY-P" fp).2 =
          .success "KEY-P" fp (some now) (some (expiryOf lic.duration_days now))
            lic.client_name lic.client_email) ∧
      (∀ hashF now ip ua fp, fp ≠ "" →
        (validate hashF now ip ua (resetByBody ⟨[licP], []⟩ "KEY-P").1 "KEY-P" fp).2 =
          .success "KEY-P" fp (some now) (some (expiryOf lic.duration_days now))
            lic.client_name lic.client_email)) ∧
    (getLicense ⟨[licP], []⟩ "KEY-P" = none →
      (resetByPath ⟨[licP], []⟩ "KEY-P").2 = ⟨404, false, "Licença não encontrada"⟩ ∧
      (resetByBody ⟨[licP], []⟩ "KEY-P").2 = ⟨200, false, "Licença não encontrada"⟩) :=
  reset_roundtrip_amended ⟨[licP], []⟩ "KEY-P" (by decide)

/-- C4's counterexample: on the same store, the two reset routes leave
DIFFERENT states — the body route nulls `expires_at` while the path route
keeps it — so they are not one core operation. -/
theorem reset_routes_states_differ :
    (resetByPath ⟨[licP], []⟩ "KEY-P").1 ≠ (resetByBody ⟨[licP], []⟩ "KEY-P").1 := by
  decide

/-- C4 as amended: for every store and non-empty key the two reset routes
report the same success/failure flag and agree on `status`,
`device_fingerprint` and `activated_at`, but they are not the same core
operation: the body route's resulting store is the path route's with
`expires_at` additionally cleared on the matching rows (and neither route
touches the activations table). -/
theorem reset_routes_agree_amended (s : Store) (key : String) (hk : key ≠ "") :
    ((resetByPath s key).2.success = (resetByBody s key).2.success) ∧
    ((resetByBody s key).1.licenses =
      updateWhere (resetByPath s key).1.licenses key clearExpiryClause) ∧
    (resetByPath s key).1.activations = s.activations ∧
    (resetByBody s key).1.activations = s.activations := by
  have hcomp : updateWhere (updateWhere s.licenses key resetPathClause) key
      clearExpiryClause = updateWhere s.licenses key resetBodyClause := by
    rw [updateWhere_updateWhere s.licenses key resetPathClause clearExpiryClause
      (fun l => rfl)]
    rfl
  refine ⟨?_, ?_, ?_, ?_⟩ <;>
    by_cases hch : changesFor s.licenses key = 0 <;>
      simp [resetByPath, resetByBody, hk, hch, hcomp]

theorem reset_routes_agree_amended_witness :
    ((resetByPath ⟨[licP], []⟩ "KEY-P").2.success =
      (resetByBody ⟨[licP], []⟩ "KEY-P").2.success) ∧
    ((resetByBody ⟨[licP], []⟩ "KEY-P").1.licenses =
      updateWhere (resetByPath ⟨[licP], []⟩ "KEY-P").1.licenses "KEY-P"
        clearExpiryClause) ∧
    (resetByPath ⟨[licP], []⟩ "KEY-P").1.activations = [] ∧
    (resetByBody ⟨[licP], []⟩ "KEY-P").1.activations = [] :=
  reset_routes_agree_amended ⟨[licP], []⟩ "KEY-P" (by decide)

/-! C5: key collisions at generation. -/

/-- C5's counterexample: when the freshly generated key already exists, the
generate endpoint does NOT retry with a new key — the UNIQUE violation is
surfaced to the caller as an HTTP 500 error and the store is left unchanged. -/
theorem generate_collision_surfaced :
    generate "AAAA-AAAA-AAAA-AAAA" 123 reqG ⟨[licG], []⟩ =
      (⟨[licG], []⟩, .err500 "Erro ao gerar licença") := by decide

/-- C5 as amended: a colliding generated key is surfaced to the caller as an
HTTP 500 error with no internal retry and no insert; key uniqueness is
nevertheless maintained (by the UNIQUE column, not by retrying): a generate
call on a store with pairwise-distinct keys leaves the keys pairwise
distinct. -/
theorem generate_collision_amended (licenseKey : String) (createdAt : Nat)
    (req : GenRequest) (s : Store) (hu : keysDistinct s) :
    ((∃ l ∈ s.licenses, l.license_key = licenseKey) →
      generate licenseKey createdAt req s = (s, .err500 "Erro ao gerar licença")) ∧
    keysDistinct (generate licenseKey createdAt req s).1 := by
  by_cases hc : s.licenses.any (fun l => l.license_key == licenseKey) = true
  · refine ⟨fun _ => by simp [generate, hc], ?_⟩
    simpa [generate, hc] using hu
  · have hall : ∀ a ∈ s.licenses, ¬a.license_key = licenseKey := by
      intro a ha he
      exact hc (List.any_eq_true.2 ⟨a, ha, by simp [he]⟩)
    constructor
    · rintro ⟨l, hl, hkey⟩
      exact absurd hkey (hall l hl)
    · simp only [generate, hc, if_false, Bool.false_eq_true, ite_false, keysDistinct]
      rw [List.pairwise_append]
      refine ⟨hu, List.pairwise_singleton _ _, ?_⟩
      intro a ha b hb
      simp only [List.mem_singleton] at hb
      subst hb
      exact hall a ha

theorem generate_collision_amended_witness :
    ((∃ l ∈ ([licG] : List License), l.license_key = "AAAA-AAAA-AAAA-AAAA") →
      generate "AAAA-AAAA-AAAA-AAAA" 123 reqG ⟨[licG], []⟩ =
        (⟨[licG], []⟩, .err500 "Erro ao gerar licença")) ∧
    keysDistinct (generate "AAAA-AAAA-AAAA-AAAA" 123 reqG ⟨[licG], []⟩).1 :=
  generate_collision_amended "AAAA-AAAA-AAAA-AAAA" 123 reqG ⟨[licG], []⟩
    (List.pairwise_singleton _ _)
